import Mathlib

/-
Verification of the protocol-engine behavior of the duckdb_mcp repository
test servers: the pagination cursor codec and pagination engine of
src/test/fastmcp/pagination_test_server.py, and the JSON-RPC line loop of
src/simple_python_mcp_server.py.

The Python values flowing through this code are the values produced by
json.loads: null, booleans, integers, decimal float literals, strings,
arrays and string-keyed objects. They are embedded as the inductive type
JVal below. Library calls of the Python standard library (base64, json)
are modelled by their documented contracts, stated at each definition.
-/

set_option linter.unusedVariables false

/-- A JSON value as produced by json.loads on the data handled by the
servers. Float literals in the embedded datasets are exact decimals and are
represented as a mantissa together with a decimal scale. -/
inductive JVal where
  | jnull
  | jbool (b : Bool)
  | jint (n : Int)
  | jnum (mantissa : Int) (scale : Nat)
  | jstr (s : String)
  | jarr (elems : List JVal)
  | jobj (fields : List (String × JVal))

/-- Lookup of a key in a JSON object, as a Python dict built by json.loads:
when a key occurs several times the last occurrence wins. Returns none when
the key is absent. -/
def getField (fields : List (String × JVal)) (k : String) : Option JVal :=
  match fields with
  | [] => none
  | (k', v) :: rest =>
    match getField rest k with
    | some w => some w
    | none => if k' = k then some v else none

/-- Python dict.get(k, default). -/
def getD (fields : List (String × JVal)) (k : String) (default : JVal) : JVal :=
  (getField fields k).getD default

/-- The integer value of a JSON value used in Python integer positions
(min, max, slicing): ints are ints, bools are ints (True = 1, False = 0),
everything else raises a TypeError there. -/
def asPyInt : JVal → Option Int
  | .jint n => some n
  | .jbool b => some (if b then 1 else 0)
  | _ => none

/-- Python exceptions raised by the embedded code paths. -/
inductive PyExc where
  | keyError (key : String)
  | typeError (msg : String)
  | valueError (msg : String)
  | attributeError (msg : String)
deriving DecidableEq, Repr

/-- str(e) for a caught exception e, as interpolated into the error
responses of the simple server: str of a KeyError is the quoted key. -/
def PyExc.str : PyExc → String
  | .keyError k => "\x27" ++ k ++ "\x27"
  | .typeError m => m
  | .valueError m => m
  | .attributeError m => m

/-
Cursor codec (PaginationCursor.encode_cursor / decode_cursor).

encode_cursor builds the dict with keys offset, limit, total and version,
serializes it with json.dumps and base64-encodes the result. decode_cursor
base64-decodes its argument and parses it with json.loads, turning any
failure of either stage into ValueError("Invalid cursor format: ...").

A string in cursor position is classified by how those two stdlib stages
treat it, using their documented contracts, namely that b64decode inverts
b64encode and json.loads inverts json.dumps:
  - encoded j: the base64 encoding of the JSON dump of the value j (this is
    what encode_cursor emits and what both stages accept);
  - badBase64 raw: a string rejected by base64.b64decode;
  - badJson raw: a string accepted by b64decode whose decoded bytes are
    rejected by json.loads (the empty string is of this kind).
-/
inductive CursorString where
  | encoded (j : JVal)
  | badBase64 (raw : String)
  | badJson (raw : String)

/-- Python truthiness of the cursor string (`if cursor:` in paginate_list):
only the empty string is falsy. An encoded value is never the empty string
since the JSON dump of a value is nonempty. -/
def CursorString.isFalsy : CursorString → Bool
  | .encoded _ => false
  | .badBase64 raw => raw = ""
  | .badJson raw => raw = ""

/-- PaginationCursor.encode_cursor: base64 of the JSON dump of the dict
with the triple and the fixed version tag. -/
def encode_cursor (offset limit total : Int) : CursorString :=
  .encoded (.jobj
    [("offset", .jint offset), ("limit", .jint limit),
     ("total", .jint total), ("version", .jstr "1.0")])

/-- PaginationCursor.decode_cursor: b64decode then json.loads, any failure
re-raised as ValueError("Invalid cursor format: " + cursor). No further
validation is performed on the parsed value. -/
def decode_cursor : CursorString → Except PyExc JVal
  | .encoded j => .ok j
  | .badBase64 raw => .error (.valueError ("Invalid cursor format: " ++ raw))
  | .badJson raw => .error (.valueError ("Invalid cursor format: " ++ raw))

/-- C1: Cursor round-trip: for every non-negative offset, positive limit and
non-negative total, decoding an encoded cursor succeeds and yields a record
whose offset, limit and total fields are the encoded values. -/
theorem cursor_roundtrip (o l t : Int) (ho : 0 ≤ o) (hl : 0 < l) (ht : 0 ≤ t) :
    ∃ fields, decode_cursor (encode_cursor o l t) = .ok (.jobj fields) ∧
      getField fields "offset" = some (.jint o) ∧
      getField fields "limit" = some (.jint l) ∧
      getField fields "total" = some (.jint t) := by
  refine ⟨_, rfl, ?_, ?_, ?_⟩ <;> rfl

/-- Witness for C1 at the triple (25, 25, 500) of spec Scenario A. -/
theorem cursor_roundtrip_witness :
    ((0 : Int) ≤ 25 ∧ (0 : Int) < 25 ∧ (0 : Int) ≤ 500) ∧
    ∃ fields, decode_cursor (encode_cursor 25 25 500) = .ok (.jobj fields) ∧
      getField fields "offset" = some (.jint 25) ∧
      getField fields "limit" = some (.jint 25) ∧
      getField fields "total" = some (.jint 500) :=
  ⟨⟨by decide, by decide, by decide⟩,
   cursor_roundtrip 25 25 500 (by decide) (by decide) (by decide)⟩

/-- The dict returned by PaginationCursor.paginate_list: the page items,
the optional encoded next cursor, the has_more_pages flag, the count of
returned items (the total_items key of the source), the clamped offset and
limit, and the collection size (total_available). -/
structure PageResult (α : Type) where
  items : List α
  next_cursor : Option CursorString
  has_more_pages : Bool
  total_items : Nat
  offset : Int
  limit : Int
  total_available : Nat

/-- PaginationCursor.paginate_list, step by step as in the source: take
offset and limit from the decoded cursor (with dict.get defaults) or use
0 and default_limit when no cursor (or the falsy empty string) is given;
clamp offset into [0, len(items)] and limit into [1, 100]; slice
items[offset : offset + limit]; compute has_more and, when it holds, the
encoded next cursor. Exceptions of the Python code surface as the error
case: the ValueError of decode_cursor, the AttributeError of .get on a
decoded non-object, and the TypeError of min/max on non-integer cursor
fields. -/
def paginate_list {α : Type} (items : List α) (cursor : Option CursorString)
    (default_limit : Int) : Except PyExc (PageResult α) :=
  let total_items : Int := (items.length : Int)
  let rawPair : Except PyExc (JVal × JVal) :=
    match cursor with
    | some c =>
      if c.isFalsy then .ok (.jint 0, .jint default_limit)
      else
        match decode_cursor c with
        | .error e => .error e
        | .ok (.jobj fields) =>
          .ok (getD fields "offset" (.jint 0), getD fields "limit" (.jint default_limit))
        | .ok _ => .error (.attributeError "object has no attribute get")
    | none => .ok (.jint 0, .jint default_limit)
  match rawPair with
  | .error e => .error e
  | .ok (offsetV, limitV) =>
    match asPyInt offsetV with
    | none => .error (.typeError "min and max need integer operands")
    | some offset0 =>
      match asPyInt limitV with
      | none => .error (.typeError "min and max need integer operands")
      | some limit0 =>
        let offset := max 0 (min offset0 total_items)
        let limit := max 1 (min limit0 100)
        let page_items := (items.drop offset.toNat).take limit.toNat
        let next_offset := offset + limit
        let has_more := decide (next_offset < total_items)
        let next_cursor : Option CursorString :=
          if next_offset < total_items then
            some (encode_cursor next_offset limit total_items)
          else none
        .ok ⟨page_items, next_cursor, has_more, page_items.length, offset, limit,
             items.length⟩

/-- Evaluation of paginate_list on an encoded integer cursor: the cursor
offset and limit are used after clamping; the total field of the cursor is
never read. -/
theorem paginate_list_encoded {α : Type} (items : List α) (dl o l t : Int) :
    paginate_list items (some (encode_cursor o l t)) dl =
      .ok ⟨(items.drop (max 0 (min o (items.length : Int))).toNat).take
              (max 1 (min l 100)).toNat,
           (if max 0 (min o (items.length : Int)) + max 1 (min l 100) <
                (items.length : Int) then
              some (encode_cursor
                (max 0 (min o (items.length : Int)) + max 1 (min l 100))
                (max 1 (min l 100)) (items.length : Int))
            else none),
           decide (max 0 (min o (items.length : Int)) + max 1 (min l 100) <
             (items.length : Int)),
           ((items.drop (max 0 (min o (items.length : Int))).toNat).take
              (max 1 (min l 100)).toNat).length,
           max 0 (min o (items.length : Int)), max 1 (min l 100),
           items.length⟩ := rfl

/-- Evaluation of paginate_list with no cursor: offset 0 and the clamped
default limit. -/
theorem paginate_list_none {α : Type} (items : List α) (dl : Int) :
    paginate_list items none dl =
      .ok ⟨items.take (max 1 (min dl 100)).toNat,
           (if max 1 (min dl 100) < (items.length : Int) then
              some (encode_cursor (max 1 (min dl 100)) (max 1 (min dl 100))
                (items.length : Int))
            else none),
           decide (max 1 (min dl 100) < (items.length : Int)),
           (items.take (max 1 (min dl 100)).toNat).length,
           0, max 1 (min dl 100), items.length⟩ := by
  have h0 : max 0 (min 0 (items.length : Int)) = 0 := by omega
  simp only [paginate_list, asPyInt, h0, Int.toNat_zero, List.drop_zero, zero_add]

/-- C2: Pagination algorithm: with no cursor paginate_list uses offset 0
and the default limit, with a cursor whose decoded record carries integer
offset and limit it uses those; offset is clamped into [0, len(items)] and
limit into [1, 100]; the page is exactly the slice
items[offset : offset + limit]; has_more holds exactly when
offset + limit < len(items); and the next cursor, present exactly when
has_more holds, encodes offset + limit, the clamped limit and len(items). -/
theorem paginate_algorithm {α : Type} (items : List α) (dl : Int)
    (c : CursorString) (fields : List (String × JVal)) (o l : Int)
    (hfal : c.isFalsy = false)
    (hdec : decode_cursor c = .ok (.jobj fields))
    (ho : getField fields "offset" = some (.jint o))
    (hl : getField fields "limit" = some (.jint l)) :
    (paginate_list items none dl =
      .ok ⟨items.take (max 1 (min dl 100)).toNat,
           (if max 1 (min dl 100) < (items.length : Int) then
              some (encode_cursor (max 1 (min dl 100)) (max 1 (min dl 100))
                (items.length : Int))
            else none),
           decide (max 1 (min dl 100) < (items.length : Int)),
           (items.take (max 1 (min dl 100)).toNat).length,
           0, max 1 (min dl 100), items.length⟩) ∧
    (paginate_list items (some c) dl =
      .ok ⟨(items.drop (max 0 (min o (items.length : Int))).toNat).take
              (max 1 (min l 100)).toNat,
           (if max 0 (min o (items.length : Int)) + max 1 (min l 100) <
                (items.length : Int) then
              some (encode_cursor
                (max 0 (min o (items.length : Int)) + max 1 (min l 100))
                (max 1 (min l 100)) (items.length : Int))
            else none),
           decide (max 0 (min o (items.length : Int)) + max 1 (min l 100) <
             (items.length : Int)),
           ((items.drop (max 0 (min o (items.length : Int))).toNat).take
              (max 1 (min l 100)).toNat).length,
           max 0 (min o (items.length : Int)), max 1 (min l 100),
           items.length⟩) ∧
    0 ≤ max 0 (min o (items.length : Int)) ∧
    max 0 (min o (items.length : Int)) ≤ (items.length : Int) ∧
    1 ≤ max 1 (min l 100) ∧ max 1 (min l 100) ≤ 100 := by
  refine ⟨paginate_list_none items dl, ?_, by omega, by omega, by omega, by omega⟩
  simp only [paginate_list, hfal, hdec, getD, ho, hl, Option.getD_some, asPyInt,
    Bool.false_eq_true, if_false]

/-- Witness for C2 on the five-element collection with the cursor
(offset 2, limit 2, total 5). -/
theorem paginate_algorithm_witness :
    (CursorString.isFalsy (encode_cursor 2 2 5) = false ∧
     decode_cursor (encode_cursor 2 2 5) =
       .ok (.jobj [("offset", .jint 2), ("limit", .jint 2), ("total", .jint 5),
                   ("version", .jstr "1.0")]) ∧
     getField [("offset", .jint 2), ("limit", .jint 2), ("total", .jint 5),
               ("version", .jstr "1.0")] "offset" = some (.jint 2) ∧
     getField [("offset", .jint 2), ("limit", .jint 2), ("total", .jint 5),
               ("version", .jstr "1.0")] "limit" = some (.jint 2)) ∧
    paginate_list [10, 20, 30, 40, 50] (some (encode_cursor 2 2 5)) 2 =
      .ok ⟨[30, 40], some (encode_cursor 4 2 5), true, 2, 2, 2, 5⟩ :=
  ⟨⟨rfl, rfl, rfl, rfl⟩,
   (paginate_algorithm [10, 20, 30, 40, 50] 2 (encode_cursor 2 2 5)
      [("offset", .jint 2), ("limit", .jint 2), ("total", .jint 5),
       ("version", .jstr "1.0")] 2 2 rfl rfl rfl rfl).2.1⟩

/-- C4 counterexample: an out-of-range negative decoded offset does not
produce an empty page: offset -5 on a three-item collection is clamped to 0
and paginate_list returns the non-empty first page with has_more true and a
next cursor, contradicting the claimed empty item list with has_more false
and no next cursor for out-of-range offsets. -/
theorem over_paging_negative_offset_cex :
    ((-5 : Int) < 0) ∧
    paginate_list ([0, 1, 2] : List Nat) (some (encode_cursor (-5) 2 3)) 50 =
      .ok ⟨[0, 1], some (encode_cursor 2 2 3), true, 2, 0, 2, 3⟩ :=
  ⟨by decide, rfl⟩

/-- C4 (amended): over-paging is a defined non-error edge case: a cursor
whose decoded integer offset is out of range — negative, or at least the
collection size — never raises; the offset is saturated into [0, total].
When the offset is at least the collection size the page is empty with
has_more false and no next cursor; a negative offset saturates to 0 and
yields the same page as offset 0. -/
theorem over_paging_out_of_range {α : Type} (items : List α) (dl o l t : Int)
    (h : o < 0 ∨ (items.length : Int) ≤ o) :
    ∃ page, paginate_list items (some (encode_cursor o l t)) dl = .ok page ∧
      0 ≤ page.offset ∧ page.offset ≤ (items.length : Int) ∧
      ((items.length : Int) ≤ o →
        page.items = [] ∧ page.has_more_pages = false ∧
        page.next_cursor = none ∧ page.offset = (items.length : Int)) ∧
      (o < 0 → page.offset = 0 ∧
        paginate_list items (some (encode_cursor o l t)) dl =
          paginate_list items (some (encode_cursor 0 l t)) dl) := by
  rw [paginate_list_encoded]
  refine ⟨_, rfl, ?_, ?_, ?_, ?_⟩
  · show 0 ≤ max 0 (min o (items.length : Int))
    omega
  · show max 0 (min o (items.length : Int)) ≤ (items.length : Int)
    omega
  · intro hge
    have hoff : max 0 (min o (items.length : Int)) = (items.length : Int) := by
      omega
    refine ⟨?_, ?_, ?_, ?_⟩
    · show (items.drop (max 0 (min o (items.length : Int))).toNat).take
          (max 1 (min l 100)).toNat = []
      rw [hoff]
      simp
    · show decide (max 0 (min o (items.length : Int)) + max 1 (min l 100) <
          (items.length : Int)) = false
      exact decide_eq_false (by omega)
    · show (if max 0 (min o (items.length : Int)) + max 1 (min l 100) <
            (items.length : Int) then
          some (encode_cursor
            (max 0 (min o (items.length : Int)) + max 1 (min l 100))
            (max 1 (min l 100)) (items.length : Int))
        else none) = none
      exact if_neg (by omega)
    · exact hoff
  · intro hneg
    have hoff : max 0 (min o (items.length : Int)) = 0 := by omega
    have h0 : max 0 (min 0 (items.length : Int)) = 0 := by omega
    constructor
    · exact hoff
    · rw [paginate_list_encoded, hoff, h0]

/-- Witness for C4 (amended) at the out-of-range offsets 7 and -5 on a
three-element collection. -/
theorem over_paging_out_of_range_witness :
    ((7 : Int) < 0 ∨ ((([0, 1, 2] : List Nat).length : Int) ≤ 7)) ∧
    (∃ page, paginate_list ([0, 1, 2] : List Nat)
        (some (encode_cursor 7 2 3)) 50 = .ok page ∧
      0 ≤ page.offset ∧ page.offset ≤ (([0, 1, 2] : List Nat).length : Int) ∧
      ((([0, 1, 2] : List Nat).length : Int) ≤ 7 →
        page.items = [] ∧ page.has_more_pages = false ∧
        page.next_cursor = none ∧
        page.offset = (([0, 1, 2] : List Nat).length : Int)) ∧
      ((7 : Int) < 0 → page.offset = 0 ∧
        paginate_list ([0, 1, 2] : List Nat) (some (encode_cursor 7 2 3)) 50 =
          paginate_list ([0, 1, 2] : List Nat) (some (encode_cursor 0 2 3)) 50)) ∧
    (((-5 : Int) < 0 ∨ ((([0, 1, 2] : List Nat).length : Int) ≤ -5)) ∧
     ∃ page, paginate_list ([0, 1, 2] : List Nat)
        (some (encode_cursor (-5) 2 3)) 50 = .ok page ∧
      0 ≤ page.offset ∧ page.offset ≤ (([0, 1, 2] : List Nat).length : Int) ∧
      ((([0, 1, 2] : List Nat).length : Int) ≤ -5 →
        page.items = [] ∧ page.has_more_pages = false ∧
        page.next_cursor = none ∧
        page.offset = (([0, 1, 2] : List Nat).length : Int)) ∧
      ((-5 : Int) < 0 → page.offset = 0 ∧
        paginate_list ([0, 1, 2] : List Nat)
            (some (encode_cursor (-5) 2 3)) 50 =
          paginate_list ([0, 1, 2] : List Nat)
            (some (encode_cursor 0 2 3)) 50)) :=
  ⟨by decide,
   over_paging_out_of_range [0, 1, 2] 50 7 2 3 (by decide),
   by decide,
   over_paging_out_of_range [0, 1, 2] 50 (-5) 2 3 (by decide)⟩

/-- C5 (amended): decode_cursor fails with the InvalidCursor ValueError
exactly on strings that fail base64 decoding or whose decoded bytes are not
valid JSON; a successfully parsed value is returned with no validation of
its structure or fields, and paginate_list silently substitutes the
defaults (offset 0, the default limit) for absent cursor fields. -/
theorem decode_cursor_failure_contract {α : Type} (items : List α) (dl : Int)
    (raw : String) (j : JVal) :
    decode_cursor (.badBase64 raw) =
      .error (.valueError ("Invalid cursor format: " ++ raw)) ∧
    decode_cursor (.badJson raw) =
      .error (.valueError ("Invalid cursor format: " ++ raw)) ∧
    decode_cursor (.encoded j) = .ok j ∧
    paginate_list items (some (.encoded (.jobj []))) dl =
      paginate_list items none dl :=
  ⟨rfl, rfl, rfl, rfl⟩

/-- C5 counterexample: a cursor string that parses as the empty JSON object
is missing every required field, yet decode_cursor returns it as a value
instead of failing, and paginate_list then silently paginates with the
default offset and limit. -/
theorem decode_cursor_missing_fields_cex :
    decode_cursor (.encoded (.jobj [])) = .ok (.jobj []) ∧
    paginate_list ([0, 1, 2] : List Nat) (some (.encoded (.jobj []))) 50 =
      .ok ⟨[0, 1, 2], none, false, 3, 0, 50, 3⟩ :=
  ⟨rfl, rfl⟩

/-- C10: the cursor version tag is stamped but never checked: encode_cursor
embeds version "1.0", while decode_cursor returns any parsed object as-is,
whatever its version field holds and whether it is present at all. -/
theorem version_tag_unchecked (o l t : Int) (fields : List (String × JVal)) :
    (∃ rest, encode_cursor o l t = .encoded (.jobj rest) ∧
      getField rest "version" = some (.jstr "1.0")) ∧
    decode_cursor (.encoded (.jobj fields)) = .ok (.jobj fields) :=
  ⟨⟨_, rfl, rfl⟩, rfl⟩

/-- Repeated pagination: call paginate_list and feed each returned next
cursor back in, collecting the pages. fuel bounds the number of pages;
none means the fuel ran out before the last page (or a call raised). -/
def paginateAll {α : Type} (fuel : Nat) (items : List α)
    (cursor : Option CursorString) (dl : Int) : Option (List (PageResult α)) :=
  match fuel with
  | 0 => none
  | fuel + 1 =>
    match paginate_list items cursor dl with
    | .error _ => none
    | .ok page =>
      match page.next_cursor with
      | none => some [page]
      | some c => Option.map (fun ps => page :: ps) (paginateAll fuel items (some c) dl)

/-- Iterating paginate_list from an in-range offset with an in-range limit
(the shape of every cursor paginate_list itself emits) succeeds on
sufficient fuel, concatenates to the remaining suffix of the collection,
and ends with a page with has_more false and no next cursor. -/
theorem paginateAll_encoded {α : Type} (items : List α) (dl l : Int)
    (hl1 : 1 ≤ l) (hl2 : l ≤ 100) :
    ∀ (fuel : Nat) (o : Int), 0 ≤ o → o ≤ (items.length : Int) →
      (items.length : Int) < o + (fuel : Int) →
      ∃ pages,
        paginateAll fuel items (some (encode_cursor o l (items.length : Int))) dl =
          some pages ∧
        (pages.map PageResult.items).flatten = items.drop o.toNat ∧
        ∃ ps lastPage, pages = ps ++ [lastPage] ∧
          lastPage.has_more_pages = false ∧ lastPage.next_cursor = none := by
  intro fuel
  induction fuel with
  | zero => intro o h0 h1 h2; exfalso; push_cast at h2; omega
  | succ fuel ih =>
    intro o h0 h1 h2
    have hoff : max 0 (min o (items.length : Int)) = o := by omega
    have hlim : max 1 (min l 100) = l := by omega
    simp only [paginateAll, paginate_list_encoded, hoff, hlim]
    by_cases hmore : o + l < (items.length : Int)
    · simp only [if_pos hmore]
      obtain ⟨pages', hrun, hjoin, ps, lastPage, hshape, hhm, hnc⟩ :=
        ih (o + l) (by omega) (by omega) (by push_cast at h2 ⊢; omega)
      rw [hrun]
      refine ⟨_, rfl, ?_, ?_⟩
      · simp only [List.map_cons, List.flatten_cons, hjoin]
        have htn : (o + l).toNat = o.toNat + l.toNat := by omega
        rw [htn, ← List.drop_drop, List.take_append_drop]
      · exact ⟨_ :: ps, lastPage, by rw [List.cons_append, ← hshape], hhm, hnc⟩
    · simp only [if_neg hmore]
      refine ⟨_, rfl, ?_, [], _, rfl, decide_eq_false hmore, rfl⟩
      simp only [List.map_cons, List.map_nil, List.flatten_cons, List.flatten_nil,
        List.append_nil]
      exact List.take_of_length_le (by rw [List.length_drop]; omega)

/-- C3: Pagination completeness and termination: starting with no cursor
and repeatedly feeding each next cursor back into paginate_list, the pages
(obtained within len(items) + 1 calls) concatenate to the whole collection
in order, and the final page has has_more false and no next cursor. -/
theorem pagination_complete {α : Type} (items : List α) (dl : Int) :
    ∃ pages, paginateAll (items.length + 1) items none dl = some pages ∧
      (pages.map PageResult.items).flatten = items ∧
      ∃ ps lastPage, pages = ps ++ [lastPage] ∧
        lastPage.has_more_pages = false ∧ lastPage.next_cursor = none := by
  simp only [paginateAll, paginate_list_none]
  by_cases hmore : max 1 (min dl 100) < (items.length : Int)
  · simp only [if_pos hmore]
    obtain ⟨pages', hrun, hjoin, ps, lastPage, hshape, hhm, hnc⟩ :=
      paginateAll_encoded items dl (max 1 (min dl 100)) (by omega) (by omega)
        items.length (max 1 (min dl 100)) (by omega) (by omega) (by omega)
    rw [hrun]
    refine ⟨_, rfl, ?_, ?_⟩
    · simp only [List.map_cons, List.flatten_cons, hjoin]
      rw [List.take_append_drop]
    · exact ⟨_ :: ps, lastPage, by rw [List.cons_append, ← hshape], hhm, hnc⟩
  · simp only [if_neg hmore]
    refine ⟨_, rfl, ?_, [], _, rfl, decide_eq_false hmore, rfl⟩
    simp only [List.map_cons, List.map_nil, List.flatten_cons, List.flatten_nil,
      List.append_nil]
    exact List.take_of_length_le (by omega)

/-
SimpleMCPServer (src/simple_python_mcp_server.py): a stateless JSON-RPC
line loop over stdin/stdout. The definitions below embed the resource
table built in __init__, the five method handlers, the dispatch of run(),
and the per-line error handling of run(). The server object carries no
session state: run() dispatches every line the same way regardless of
history, so one line is handled by a pure function of that line.
-/

/-- Two spaces per indentation level, as json.dumps(indent=2) emits. -/
def indentSpaces (lvl : Nat) : String := String.mk (List.replicate (2 * lvl) ' ')

/-- JSON string escaping as json.dumps performs it on the characters
occurring in the embedded data. -/
def escapeJsonChar (c : Char) : String :=
  if c = '"' then "\\\"" else if c = '\\' then "\\\\"
  else if c = '\n' then "\\n" else if c = '\t' then "\\t"
  else if c = '\r' then "\\r" else String.singleton c

def escapeJson (s : String) : String := String.join (s.toList.map escapeJsonChar)

/-- Decimal rendering of the float literals of the embedded datasets as
Python prints them (for example 1200.5): mantissa and scale are stored
normalized, with no trailing zero digit and scale at least 1. -/
def renderDecimal (m : Int) (scale : Nat) : String :=
  let n := m.toNat
  let p := 10 ^ scale
  let fracDigits := toString (n % p)
  let pad := String.mk (List.replicate (scale - fracDigits.length) '0')
  toString (n / p) ++ "." ++ pad ++ fracDigits

mutual
/-- json.dumps(v, indent=2) at the given indentation level, as used for the
text content of resources/read and tools/call responses. -/
def jsonDumps : JVal → Nat → String
  | .jnull, _ => "null"
  | .jbool b, _ => if b then "true" else "false"
  | .jint n, _ => toString n
  | .jnum m s, _ => renderDecimal m s
  | .jstr s, _ => "\"" ++ escapeJson s ++ "\""
  | .jarr [], _ => "[]"
  | .jarr (x :: xs), lvl =>
    "[\n" ++ jsonDumpsElems (x :: xs) (lvl + 1) ++ "\n" ++ indentSpaces lvl ++ "]"
  | .jobj [], _ => "\x7b\x7d"
  | .jobj (f :: fs), lvl =>
    "\x7b\n" ++ jsonDumpsFields (f :: fs) (lvl + 1) ++ "\n" ++ indentSpaces lvl ++ "\x7d"

def jsonDumpsElems : List JVal → Nat → String
  | [], _ => ""
  | [x], lvl => indentSpaces lvl ++ jsonDumps x lvl
  | x :: y :: xs, lvl =>
    indentSpaces lvl ++ jsonDumps x lvl ++ ",\n" ++ jsonDumpsElems (y :: xs) lvl

def jsonDumpsFields : List (String × JVal) → Nat → String
  | [], _ => ""
  | [(k, v)], lvl =>
    indentSpaces lvl ++ "\"" ++ escapeJson k ++ "\": " ++ jsonDumps v lvl
  | (k, v) :: f :: fs, lvl =>
    indentSpaces lvl ++ "\"" ++ escapeJson k ++ "\": " ++ jsonDumps v lvl ++ ",\n" ++
      jsonDumpsFields (f :: fs) lvl
end

mutual
/-- Python repr() of a decoded JSON value (strings in single quotes), the
form str() uses inside containers. -/
def pyRepr : JVal → String
  | .jnull => "None"
  | .jbool b => if b then "True" else "False"
  | .jint n => toString n
  | .jnum m s => renderDecimal m s
  | .jstr s => "\x27" ++ s ++ "\x27"
  | .jarr xs => "[" ++ pyReprElems xs ++ "]"
  | .jobj fs => "\x7b" ++ pyReprFields fs ++ "\x7d"

def pyReprElems : List JVal → String
  | [] => ""
  | [x] => pyRepr x
  | x :: y :: xs => pyRepr x ++ ", " ++ pyReprElems (y :: xs)

def pyReprFields : List (String × JVal) → String
  | [] => ""
  | [(k, v)] => "\x27" ++ k ++ "\x27: " ++ pyRepr v
  | (k, v) :: f :: fs =>
    "\x27" ++ k ++ "\x27: " ++ pyRepr v ++ ", " ++ pyReprFields (f :: fs)
end

/-- Python str() of a decoded JSON value, as interpolated into the
f-strings of the server responses. -/
def pyStr : JVal → String
  | .jnull => "None"
  | .jbool b => if b then "True" else "False"
  | .jint n => toString n
  | .jnum m s => renderDecimal m s
  | .jstr s => s
  | .jarr xs => "[" ++ pyReprElems xs ++ "]"
  | .jobj fs => "\x7b" ++ pyReprFields fs ++ "\x7d"

/-- request[k] on a dict: KeyError when the key is absent. -/
def getItem (fields : List (String × JVal)) (k : String) : Except PyExc JVal :=
  match getField fields k with
  | some v => .ok v
  | none => .error (.keyError k)

/-- v[k] with a string key on an arbitrary decoded value: an object lookup,
or the TypeError Python raises on non-objects. -/
def pySubscript (v : JVal) (k : String) : Except PyExc JVal :=
  match v with
  | .jobj fields => getItem fields k
  | .jarr _ => .error (.typeError "list indices must be integers or slices, not str")
  | .jstr _ => .error (.typeError "string indices must be integers")
  | _ => .error (.typeError "object is not subscriptable")

/-- Python equality of a decoded JSON value against a string: true only for
that very string. -/
def JVal.eqStr : JVal → String → Bool
  | .jstr t, s => t = s
  | _, _ => false

/-- One record of the customers dataset table of SimpleMCPServer. -/
def customersList : List JVal := [
  .jobj [("id", .jint 1), ("name", .jstr "Alice Smith"),
         ("city", .jstr "New York"), ("spent", .jnum 12005 1)],
  .jobj [("id", .jint 2), ("name", .jstr "Bob Jones"),
         ("city", .jstr "Chicago"), ("spent", .jnum 85075 2)],
  .jobj [("id", .jint 3), ("name", .jstr "Carol Brown"),
         ("city", .jstr "San Francisco"), ("spent", .jnum 210025 2)]]

/-- The products dataset table of SimpleMCPServer. -/
def productsList : List JVal := [
  .jobj [("id", .jint 101), ("name", .jstr "Laptop"),
         ("category", .jstr "Electronics"), ("price", .jnum 99999 2)],
  .jobj [("id", .jint 102), ("name", .jstr "Mouse"),
         ("category", .jstr "Electronics"), ("price", .jnum 2999 2)],
  .jobj [("id", .jint 103), ("name", .jstr "Desk"),
         ("category", .jstr "Furniture"), ("price", .jnum 29999 2)]]

/-- Metadata and data of one entry of self.resources. -/
structure ResourceInfo where
  name : String
  description : String
  mimeType : String
  data : JVal

/-- self.resources as built in SimpleMCPServer.__init__, in insertion
order. -/
def serverResources : List (String × ResourceInfo) := [
  ("data://customers",
    ⟨"customers", "Sample customer data", "application/json", .jarr customersList⟩),
  ("data://products",
    ⟨"products", "Sample product catalog", "application/json", .jarr productsList⟩)]

/-- uri in self.resources / self.resources[uri]. -/
def lookupResource (uri : String) : Option ResourceInfo :=
  (serverResources.find? (fun r => r.1 == uri)).map (fun r => r.2)

/-- SimpleMCPServer.handle_initialize: a fixed result carrying the request
id; reading a missing id raises KeyError. No session state is recorded. -/
def handle_initialize (req : List (String × JVal)) : Except PyExc JVal :=
  match getItem req "id" with
  | .error e => .error e
  | .ok idv =>
    .ok (.jobj [("jsonrpc", .jstr "2.0"), ("id", idv),
      ("result", .jobj [
        ("protocolVersion", .jstr "2024-11-05"),
        ("capabilities", .jobj [
          ("resources", .jobj [("subscribe", .jbool false)]),
          ("tools", .jobj [])]),
        ("serverInfo", .jobj [
          ("name", .jstr "Simple Python MCP Server"),
          ("version", .jstr "1.0.0")])])])

/-- SimpleMCPServer.handle_resources_list. -/
def handle_resources_list (req : List (String × JVal)) : Except PyExc JVal :=
  let resources := serverResources.map (fun r =>
    JVal.jobj [("uri", .jstr r.1), ("name", .jstr r.2.name),
      ("description", .jstr r.2.description), ("mimeType", .jstr r.2.mimeType)])
  match getItem req "id" with
  | .error e => .error e
  | .ok idv =>
    .ok (.jobj [("jsonrpc", .jstr "2.0"), ("id", idv),
      ("result", .jobj [("resources", .jarr resources)])])

/-- SimpleMCPServer.handle_resources_read: reads request params uri, looks
it up in the resource table; unknown uris yield the code -1 error response;
a found resource is returned with the json.dumps(indent=2) of its data. -/
def handle_resources_read (req : List (String × JVal)) : Except PyExc JVal :=
  match getItem req "params" with
  | .error e => .error e
  | .ok params =>
    match pySubscript params "uri" with
    | .error e => .error e
    | .ok uriV =>
      match uriV with
      | .jarr _ => .error (.typeError "unhashable type: \x27list\x27")
      | .jobj _ => .error (.typeError "unhashable type: \x27dict\x27")
      | .jstr uri =>
        match lookupResource uri with
        | some info =>
          match getItem req "id" with
          | .error e => .error e
          | .ok idv =>
            .ok (.jobj [("jsonrpc", .jstr "2.0"), ("id", idv),
              ("result", .jobj [("contents", .jarr [
                .jobj [("uri", .jstr uri), ("mimeType", .jstr info.mimeType),
                  ("text", .jstr (jsonDumps info.data 0))]])])])
        | none =>
          match getItem req "id" with
          | .error e => .error e
          | .ok idv =>
            .ok (.jobj [("jsonrpc", .jstr "2.0"), ("id", idv),
              ("error", .jobj [("code", .jint (-1)),
                ("message", .jstr ("Resource not found: " ++ uri))])])
      | other =>
        match getItem req "id" with
        | .error e => .error e
        | .ok idv =>
          .ok (.jobj [("jsonrpc", .jstr "2.0"), ("id", idv),
            ("error", .jobj [("code", .jint (-1)),
              ("message", .jstr ("Resource not found: " ++ pyStr other))])])

/-- The static tool descriptions of handle_tools_list. -/
def toolsList : List JVal := [
  .jobj [("name", .jstr "count_records"),
    ("description", .jstr "Count records in a dataset"),
    ("inputSchema", .jobj [
      ("type", .jstr "object"),
      ("properties", .jobj [
        ("dataset", .jobj [("type", .jstr "string"),
          ("description", .jstr "Dataset name (customers or products)")])]),
      ("required", .jarr [.jstr "dataset"])])],
  .jobj [("name", .jstr "filter_by_field"),
    ("description", .jstr "Filter dataset by field value"),
    ("inputSchema", .jobj [
      ("type", .jstr "object"),
      ("properties", .jobj [
        ("dataset", .jobj [("type", .jstr "string")]),
        ("field", .jobj [("type", .jstr "string")]),
        ("value", .jobj [("type", .jstr "string")])]),
      ("required", .jarr [.jstr "dataset", .jstr "field", .jstr "value"])])]]

/-- SimpleMCPServer.handle_tools_list. -/
def handle_tools_list (req : List (String × JVal)) : Except PyExc JVal :=
  match getItem req "id" with
  | .error e => .error e
  | .ok idv =>
    .ok (.jobj [("jsonrpc", .jstr "2.0"), ("id", idv),
      ("result", .jobj [("tools", .jarr toolsList)])])

/-- item.get(field, default) inside filter_by_field: unhashable keys raise
TypeError, keys that are not strings match nothing in these string-keyed
records, and a non-dict item would have no get attribute. -/
def pyDictGet (item field default : JVal) : Except PyExc JVal :=
  match field with
  | .jarr _ => .error (.typeError "unhashable type: \x27list\x27")
  | .jobj _ => .error (.typeError "unhashable type: \x27dict\x27")
  | .jstr f =>
    match item with
    | .jobj fs => .ok (getD fs f default)
    | _ => .error (.attributeError "object has no attribute get")
  | _ =>
    match item with
    | .jobj _ => .ok default
    | _ => .error (.attributeError "object has no attribute get")

/-- The list comprehension of filter_by_field:
[item for item in data if str(item.get(field, "")) == value]. -/
def filterByField (data : List JVal) (field value : JVal) :
    Except PyExc (List JVal) :=
  match data with
  | [] => .ok []
  | item :: rest =>
    match pyDictGet item field (.jstr "") with
    | .error e => .error e
    | .ok got =>
      match filterByField rest field value with
      | .error e => .error e
      | .ok tail =>
        if value.eqStr (pyStr got) then .ok (item :: tail) else .ok tail

/-- SimpleMCPServer.handle_tools_call: count_records and filter_by_field
over the two datasets; unknown datasets and tools yield code -1 error
responses. -/
def handle_tools_call (req : List (String × JVal)) : Except PyExc JVal :=
  match getItem req "params" with
  | .error e => .error e
  | .ok params =>
    match pySubscript params "name" with
    | .error e => .error e
    | .ok toolName =>
      match pySubscript params "arguments" with
      | .error e => .error e
      | .ok args =>
        if toolName.eqStr "count_records" then
          match pySubscript args "dataset" with
          | .error e => .error e
          | .ok dataset =>
            if dataset.eqStr "customers" then
              match getItem req "id" with
              | .error e => .error e
              | .ok idv =>
                .ok (.jobj [("jsonrpc", .jstr "2.0"), ("id", idv),
                  ("result", .jobj [("content", .jarr [
                    .jobj [("type", .jstr "text"),
                      ("text", .jstr ("Dataset \x27" ++ pyStr dataset ++
                        "\x27 has " ++ toString customersList.length ++
                        " records"))]])])])
            else if dataset.eqStr "products" then
              match getItem req "id" with
              | .error e => .error e
              | .ok idv =>
                .ok (.jobj [("jsonrpc", .jstr "2.0"), ("id", idv),
                  ("result", .jobj [("content", .jarr [
                    .jobj [("type", .jstr "text"),
                      ("text", .jstr ("Dataset \x27" ++ pyStr dataset ++
                        "\x27 has " ++ toString productsList.length ++
                        " records"))]])])])
            else
              match getItem req "id" with
              | .error e => .error e
              | .ok idv =>
                .ok (.jobj [("jsonrpc", .jstr "2.0"), ("id", idv),
                  ("error", .jobj [("code", .jint (-1)),
                    ("message", .jstr ("Unknown dataset: " ++ pyStr dataset))])])
        else if toolName.eqStr "filter_by_field" then
          match pySubscript args "dataset" with
          | .error e => .error e
          | .ok dataset =>
            match pySubscript args "field" with
            | .error e => .error e
            | .ok fieldV =>
              match pySubscript args "value" with
              | .error e => .error e
              | .ok valueV =>
                let withData : List JVal → Except PyExc JVal := fun data =>
                  match filterByField data fieldV valueV with
                  | .error e => .error e
                  | .ok filtered =>
                    match getItem req "id" with
                    | .error e => .error e
                    | .ok idv =>
                      .ok (.jobj [("jsonrpc", .jstr "2.0"), ("id", idv),
                        ("result", .jobj [("content", .jarr [
                          .jobj [("type", .jstr "text"),
                            ("text", .jstr (jsonDumps (.jarr filtered) 0))]])])])
                if dataset.eqStr "customers" then withData customersList
                else if dataset.eqStr "products" then withData productsList
                else
                  match getItem req "id" with
                  | .error e => .error e
                  | .ok idv =>
                    .ok (.jobj [("jsonrpc", .jstr "2.0"), ("id", idv),
                      ("error", .jobj [("code", .jint (-1)),
                        ("message", .jstr ("Unknown dataset: " ++ pyStr dataset))])])
        else
          match getItem req "id" with
          | .error e => .error e
          | .ok idv =>
            .ok (.jobj [("jsonrpc", .jstr "2.0"), ("id", idv),
              ("error", .jobj [("code", .jint (-1)),
                ("message", .jstr ("Unknown tool: " ++ pyStr toolName))])])

/-- The method dispatch of SimpleMCPServer.run: the five registered
methods, then the MethodNotFound (-32601) error response. -/
def dispatch (req : List (String × JVal)) : Except PyExc JVal :=
  match getItem req "method" with
  | .error e => .error e
  | .ok mthd =>
    if mthd.eqStr "initialize" then handle_initialize req
    else if mthd.eqStr "resources/list" then handle_resources_list req
    else if mthd.eqStr "resources/read" then handle_resources_read req
    else if mthd.eqStr "tools/list" then handle_tools_list req
    else if mthd.eqStr "tools/call" then handle_tools_call req
    else
      .ok (.jobj [("jsonrpc", .jstr "2.0"),
        ("id", (getField req "id").getD .jnull),
        ("error", .jobj [("code", .jint (-32601)),
          ("message", .jstr ("Method not found: " ++ pyStr mthd))])])

/-- The run loop of SimpleMCPServer dies when the except-handler itself
raises. -/
inductive ServerCrash where
  | crashed
deriving DecidableEq, Repr

/-- A line read by SimpleMCPServer.run, classified by how json.loads treats
line.strip(), via the json module contract that loads inverts dumps:
ofJson j ws is the serialized form of the value j followed by trailing
whitespace ws (removed by strip before parsing); malformed raw is a line
whose stripped text is not valid JSON, the empty line included. -/
inductive InputLine where
  | ofJson (j : JVal) (ws : String)
  | malformed (raw : String)

/-- One iteration of the SimpleMCPServer.run loop on one input line: the
single response printed for it, or a crash of the loop. A JSON line that is
not an object raises TypeError at request["method"]; the except handler
then evaluates request.get("id"), which raises AttributeError on the
non-dict and escapes the loop uncaught. -/
def handleLine : InputLine → Except ServerCrash JVal
  | .malformed _ =>
    .ok (.jobj [("jsonrpc", .jstr "2.0"), ("id", .jnull),
      ("error", .jobj [("code", .jint (-32700)),
        ("message", .jstr "Parse error")])])
  | .ofJson j _ =>
    match j with
    | .jobj req =>
      match dispatch req with
      | .ok response => .ok response
      | .error e =>
        .ok (.jobj [("jsonrpc", .jstr "2.0"),
          ("id", (getField req "id").getD .jnull),
          ("error", .jobj [("code", .jint (-32603)),
            ("message", .jstr ("Internal error: " ++ e.str))])])
    | _ => .error .crashed

/-- A printed response carrying a result and no error key. -/
def isSuccessResponse : Except ServerCrash JVal → Bool
  | .ok (.jobj f) => (getField f "result").isSome && (getField f "error").isNone
  | _ => false

/-- C6 (amended): a line whose stripped text is not valid JSON — the empty
line included — is answered with the ParseError (-32700) response, never
silently dropped; trailing whitespace is stripped and never changes the
result; the jsonrpc field is not consulted; and a valid-JSON line that is
not an object crashes the loop in its error handler instead of producing a
ParseError response. -/
theorem message_decode_contract (raw : String) (j : JVal) (ws : String) :
    handleLine (.malformed raw) =
      .ok (.jobj [("jsonrpc", .jstr "2.0"), ("id", .jnull),
        ("error", .jobj [("code", .jint (-32700)),
          ("message", .jstr "Parse error")])]) ∧
    handleLine (.ofJson j ws) = handleLine (.ofJson j "") ∧
    handleLine (.ofJson (.jint 5) "") = .error .crashed :=
  ⟨rfl, rfl, rfl⟩

/-- C6 counterexample: a message that omits the jsonrpc discriminator field
is not rejected with a ParseError: the initialize request without jsonrpc
is processed and answered with a normal result. -/
theorem missing_jsonrpc_accepted_cex :
    getField [("method", .jstr "initialize"), ("id", .jint 1)] "jsonrpc" = none ∧
    isSuccessResponse (handleLine (.ofJson
      (.jobj [("method", .jstr "initialize"), ("id", .jint 1)]) "")) = true :=
  ⟨rfl, rfl⟩

/-- C7: evaluation at the failing input: a resources/read request arriving
at a fresh server before any initialize exchange succeeds with a normal
result — handleLine is a function of the single line only, the server
keeps no session state and never rejects out-of-order calls. -/
theorem read_before_initialize_succeeds :
    isSuccessResponse (handleLine (.ofJson (.jobj [
      ("jsonrpc", .jstr "2.0"), ("id", .jint 1),
      ("method", .jstr "resources/read"),
      ("params", .jobj [("uri", .jstr "data://customers")])]) "")) = true := rfl

/-- C8: every request whose method is a string other than the five
registered methods is answered with the MethodNotFound response, error
code -32601, carrying the request id (null when absent). -/
theorem unknown_method_dispatch (req : List (String × JVal)) (m : String)
    (ws : String)
    (hm : getField req "method" = some (.jstr m))
    (hnot : m ∉ ["initialize", "resources/list", "resources/read",
                 "tools/list", "tools/call"]) :
    handleLine (.ofJson (.jobj req) ws) =
      .ok (.jobj [("jsonrpc", .jstr "2.0"),
        ("id", (getField req "id").getD .jnull),
        ("error", .jobj [("code", .jint (-32601)),
          ("message", .jstr ("Method not found: " ++ m))])]) := by
  simp only [List.mem_cons, List.not_mem_nil, or_false, not_or] at hnot
  obtain ⟨h1, h2, h3, h4, h5⟩ := hnot
  simp [handleLine, dispatch, getItem, hm, JVal.eqStr, pyStr, h1, h2, h3, h4, h5]

/-- Witness for C8 on the unregistered method frobnicate. -/
theorem unknown_method_dispatch_witness :
    (getField [("method", .jstr "frobnicate"), ("id", .jint 7)] "method" =
       some (.jstr "frobnicate") ∧
     "frobnicate" ∉ ["initialize", "resources/list", "resources/read",
                     "tools/list", "tools/call"]) ∧
    handleLine (.ofJson
        (.jobj [("method", .jstr "frobnicate"), ("id", .jint 7)]) "") =
      .ok (.jobj [("jsonrpc", .jstr "2.0"), ("id", .jint 7),
        ("error", .jobj [("code", .jint (-32601)),
          ("message", .jstr "Method not found: frobnicate")])]) :=
  ⟨⟨rfl, by decide⟩,
   unknown_method_dispatch [("method", .jstr "frobnicate"), ("id", .jint 7)]
     "frobnicate" "" rfl (by decide)⟩

/-- With no id key in the request, handle_resources_read raises before
returning: every branch reads request["id"] while building its response,
or raises earlier. -/
theorem read_no_id (req : List (String × JVal))
    (hid : getField req "id" = none) :
    ∃ e, handle_resources_read req = .error e := by
  have hidItem : getItem req "id" = .error (.keyError "id") := by
    simp [getItem, hid]
  simp only [ handle_resources_read, hidItem]
  repeat' split
  all_goals exact ⟨_, rfl⟩

/-- With no id key in the request, handle_tools_call raises before
returning. -/
theorem tools_call_no_id (req : List (String × JVal))
    (hid : getField req "id" = none) :
    ∃ e, handle_tools_call req = .error e := by
  have hidItem : getItem req "id" = .error (.keyError "id") := by
    simp [getItem, hid]
  simp only [ handle_tools_call, hidItem]
  repeat' split
  all_goals exact ⟨_, rfl⟩

/-- With no id key in the request, every registered handler raises before
returning (each reads request["id"] while building its response), so
dispatch either raises or answers with the MethodNotFound response whose id
is null. -/
theorem dispatch_no_id (req : List (String × JVal))
    (hid : getField req "id" = none) :
    (∃ e, dispatch req = .error e) ∨
    (∃ msg, dispatch req = .ok (.jobj [("jsonrpc", .jstr "2.0"),
      ("id", .jnull),
      ("error", .jobj [("code", .jint (-32601)),
        ("message", .jstr msg)])])) := by
  have hidItem : getItem req "id" = .error (.keyError "id") := by
    simp [getItem, hid]
  have hInit : handle_initialize req = .error (.keyError "id") := by
    simp [ handle_initialize, hidItem]
  have hRL : handle_resources_list req = .error (.keyError "id") := by
    simp [ handle_resources_list, hidItem]
  have hTL : handle_tools_list req = .error (.keyError "id") := by
    simp [ handle_tools_list, hidItem]
  obtain ⟨e1, hRR⟩ := read_no_id req hid
  obtain ⟨e2, hTC⟩ := tools_call_no_id req hid
  unfold dispatch
  repeat' split
  all_goals first
    | exact Or.inl ⟨_, rfl⟩
    | exact Or.inl ⟨_, hInit⟩
    | exact Or.inl ⟨_, hRL⟩
    | exact Or.inl ⟨_, hRR⟩
    | exact Or.inl ⟨_, hTL⟩
    | exact Or.inl ⟨_, hTC⟩
    | (simp only [hid, Option.getD_none]; exact Or.inr ⟨_, rfl⟩)

/-- C9 (amended): the server answers every object line, notifications
included: a message with a method but no id receives exactly one response
and that response carries a null id (the MethodNotFound error for unknown
methods, an internal error for the registered handlers, which read the
missing id). -/
theorem notification_always_answered (req : List (String × JVal)) (ws : String)
    (hid : getField req "id" = none) :
    ∃ r, handleLine (.ofJson (.jobj req) ws) = .ok (.jobj r) ∧
      getField r "id" = some .jnull := by
  rcases dispatch_no_id req hid with ⟨e, hdisp⟩ | ⟨msg, hdisp⟩ <;>
    simp only [handleLine, hdisp, hid, Option.getD_none] <;>
    exact ⟨_, rfl, rfl⟩

/-- Witness for C9 (amended) on the tools/list notification. -/
theorem notification_always_answered_witness :
    (getField [("method", .jstr "tools/list")] "id" = none) ∧
    ∃ r, handleLine (.ofJson (.jobj [("method", .jstr "tools/list")]) "") =
      .ok (.jobj r) ∧ getField r "id" = some .jnull :=
  ⟨rfl, notification_always_answered [("method", .jstr "tools/list")] "" rfl⟩

/-- C9 counterexample: a notification (method but no id) is answered: the
tools/list notification receives the internal-error response with a null
id, because the handler reads the absent request id. -/
theorem notification_answered_cex :
    getField [("method", .jstr "tools/list")] "id" = none ∧
    handleLine (.ofJson (.jobj [("method", .jstr "tools/list")]) "") =
      .ok (.jobj [("jsonrpc", .jstr "2.0"), ("id", .jnull),
        ("error", .jobj [("code", .jint (-32603)),
          ("message", .jstr "Internal error: \x27id\x27")])]) :=
  ⟨rfl, rfl⟩
